import Mathlib

/-!
Shallow embedding of the chat widget in `src/src/components/ChatUI.tsx`.

The component's React state is collected into a `ChatState` record; each event
handler (`handleSend`, `handleFileUpload`, `removeFile`) becomes a pure state
transformer.  The external completion service is modelled by a `ServiceOutcome`
parameter (network error / non-ok HTTP status / JSON parse error / parsed
response), and the external PDF.js library by a `PDFDocument` whose per-page
text retrieval may fail.  JavaScript `||` on strings (falsy on the empty
string) is modelled explicitly.
-/

/-- The `sender` field of a `Message`: `user` or `assistant`. -/
inductive Sender where
  | user
  | assistant
deriving DecidableEq, Repr

/-- The `Message` type (one display bubble of the conversation log). -/
structure Message where
  id : String
  sender : Sender
  text : String
  timestamp : Nat
  hasAttachment : Bool := false
  attachmentName : Option String := none
deriving DecidableEq, Repr

/-- The `role` field of a `GeminiContent`: `user` or `model`. -/
inductive Role where
  | user
  | model
deriving DecidableEq, Repr

/-- One element of `parts: { text: string }[]`. -/
structure GPart where
  text : String
deriving DecidableEq, Repr

/-- The `GeminiContent` type (one turn of the model session). -/
structure GeminiContent where
  role : Role
  parts : List GPart
deriving DecidableEq, Repr

/-- The `UploadedFile` type (`type` is always the literal `'pdf'`, omitted). -/
structure UploadedFile where
  name : String
  content : String
deriving DecidableEq, Repr

/-- The component's state hooks gathered into one record. -/
structure ChatState where
  messages : List Message
  conversationHistory : List GeminiContent
  input : String
  isTyping : Bool
  uploadedFiles : List UploadedFile
  isProcessingFile : Bool
  pdfJsLoaded : Bool
deriving DecidableEq, Repr

/-! ## PDF extraction (`extractTextFromPDF`) -/

/-- One item of a page's `textContent.items`; `str` is the text fragment. -/
structure PDFItem where
  str : String
deriving DecidableEq, Repr

/-- A parsed PDF document: `pages.length` is `pdf.numPages`, and `getPage i`
followed by `getTextContent()` yields the `(i-1)`-th entry, which is an
`Except` because either call may fail inside the extraction loop. -/
structure PDFDocument where
  pages : List (Except Unit (List PDFItem))
deriving Repr

/-- The page block appended for page `i`:
`fullText += ` followed by the template `Page ${i}:\n${pageText}\n\n` where
`pageText` is `textContent.items.map(item => item.str).join(' ')`. -/
def pageBlock (i : Nat) (items : List PDFItem) : String :=
  "Page " ++ Nat.repr i ++ ":\n" ++ String.intercalate " " (items.map PDFItem.str) ++ "\n\n"

/-- The page loop (`for (let i = 1; i <= pdf.numPages; i++)`) of `extractTextFromPDF`,
with `acc` playing the role of `fullText`.  A failure while retrieving a page
or its text content rejects the whole promise (the surrounding `try`/`catch`
calls `reject(error)`), discarding the accumulator. -/
def extractLoop : List (Except Unit (List PDFItem)) → Nat → String → Except Unit String
  | [], _, acc => Except.ok acc
  | p :: rest, i, acc =>
    match p with
    | Except.error e => Except.error e
    | Except.ok items => extractLoop rest (i + 1) (acc ++ pageBlock i items)

/-- Definition of `extractTextFromPDF`: iterates the pages starting at index 1 with an empty
accumulator and resolves with the accumulated string. -/
def extractTextFromPDF (doc : PDFDocument) : Except Unit String :=
  extractLoop doc.pages 1 ""

/-- Concatenation of the page blocks for pages numbered from `i`. -/
def pagesConcat (i : Nat) (pagesOk : List (List PDFItem)) : String :=
  match pagesOk with
  | [] => ""
  | items :: rest => pageBlock i items ++ pagesConcat (i + 1) rest

/-! ## Completion service (`callGeminiAPI`) -/

/-- The JSON shape probed by
`data.candidates?.[0]?.content?.parts?.[0]?.text`; every probed field may be
absent. -/
structure RespPart where
  text : Option String
deriving DecidableEq, Repr

/-- The `content` of a candidate; `parts` may be absent. -/
structure RespContent where
  parts : Option (List RespPart)
deriving DecidableEq, Repr

/-- One element of `data.candidates`. -/
structure RespCandidate where
  content : Option RespContent
deriving DecidableEq, Repr

/-- A parsed response body (`data`). -/
structure GeminiResponse where
  candidates : Option (List RespCandidate)
deriving DecidableEq, Repr

/-- The optional chain `data.candidates?.[0]?.content?.parts?.[0]?.text`:
`none` when any link is absent (including an empty `candidates` or `parts`
array, whose `[0]` is undefined). -/
def responseText (data : GeminiResponse) : Option String :=
  (((data.candidates.bind List.head?).bind RespCandidate.content).bind
      RespContent.parts).bind (fun parts => (parts.head?).bind RespPart.text)

/-- JavaScript `x || fallback` on a possibly-undefined string `x`: the
fallback is taken when `x` is undefined or the empty string (both falsy). -/
def orFalsy (x : Option String) (fallback : String) : String :=
  match x with
  | none => fallback
  | some s => if s = "" then fallback else s

/-- The `aiResponseText` expression:
`data.candidates?.[0]?.content?.parts?.[0]?.text || 'Sorry, I could not generate a response.'`. -/
def aiReplyText (data : GeminiResponse) : String :=
  orFalsy (responseText data) "Sorry, I could not generate a response."

/-- Outcome of the `fetch` round-trip of one send, fixed by the environment:
the promise rejects (network error), the response arrives with `response.ok`
false, `response.json()` rejects, or a body parses successfully. -/
inductive ServiceOutcome where
  | networkError
  | httpError (status : Nat)
  | parseError
  | success (data : GeminiResponse)
deriving Repr

/-- The three branches in which the completion-service call fails. -/
def ServiceOutcome.isFailure : ServiceOutcome → Bool
  | ServiceOutcome.success _ => false
  | _ => true

/-- The `messageForAPI` value: the raw text, or — when `includeFileContent` and files
are pending — the synthesized context block followed by the question. -/
def composeMessage (uploadedFiles : List UploadedFile) (userMessage : String)
    (includeFileContent : Bool) : String :=
  if includeFileContent && decide (uploadedFiles.length > 0) then
    let fileContext := String.intercalate "\n\n"
      (uploadedFiles.map (fun file => "Content from " ++ file.name ++ ":\n" ++ file.content))
    "Context from uploaded files:\n" ++ fileContext ++ "\n\nUser question: " ++ userMessage
  else
    userMessage

/-- The body of `callGeminiAPI`'s `try` block.  Returns the list of outbound
request bodies made (`{ contents: updatedHistory }` — exactly one, since the
`fetch` is always reached) paired with either the thrown error or the reply
text together with the new `conversationHistory` installed by
`setConversationHistory`. -/
def callGeminiAPIBody (hist : List GeminiContent) (uploadedFiles : List UploadedFile)
    (userMessage : String) (includeFileContent : Bool) (outcome : ServiceOutcome) :
    List (List GeminiContent) × Except Unit (String × List GeminiContent) :=
  let messageForAPI := composeMessage uploadedFiles userMessage includeFileContent
  let newUserContent : GeminiContent := { role := Role.user, parts := [{ text := messageForAPI }] }
  let updatedHistory := hist ++ [newUserContent]
  ([updatedHistory],
    match outcome with
    | ServiceOutcome.networkError => Except.error ()
    | ServiceOutcome.httpError _ => Except.error ()
    | ServiceOutcome.parseError => Except.error ()
    | ServiceOutcome.success data =>
        let aiResponseText := aiReplyText data
        let aiContent : GeminiContent := { role := Role.model, parts := [{ text := aiResponseText }] }
        Except.ok (aiResponseText, updatedHistory ++ [aiContent]))

/-- Definition of `callGeminiAPI`: the `try` body wrapped in the `catch` that swallows every
error, returning the fixed apology and leaving `conversationHistory` as it
was.  The `Except` in the result type models that an `async` function may
still reject; the catch-all makes that impossible here. -/
def callGeminiAPI (hist : List GeminiContent) (uploadedFiles : List UploadedFile)
    (userMessage : String) (includeFileContent : Bool) (outcome : ServiceOutcome) :
    List (List GeminiContent) × Except Unit (String × List GeminiContent) :=
  match callGeminiAPIBody hist uploadedFiles userMessage includeFileContent outcome with
  | (reqs, Except.ok r) => (reqs, Except.ok r)
  | (reqs, Except.error _) =>
      (reqs, Except.ok
        ("Sorry, I encountered an error while processing your request. Please try again.", hist))

/-! ## `handleSend` -/

/-- JavaScript `String.prototype.trim()`: drop whitespace from both ends. -/
def strTrim (s : String) : String :=
  { data := ((s.data.dropWhile Char.isWhitespace).reverse.dropWhile Char.isWhitespace).reverse }

/-- Result of one `handleSend` invocation: the new component state and the
outbound request bodies made during it. -/
structure SendResult where
  state : ChatState
  requests : List (List GeminiContent)
deriving Repr

/-- The user `Message` built by `handleSend` (line 248). -/
def userMsgOf (text : String) (now : Nat) : Message :=
  { id := "user-" ++ Nat.repr now, sender := Sender.user, text := text, timestamp := now }

/-- The assistant `Message` built on the (always-taken) success branch. -/
def assistantMsgOf (aiResponse : String) (now : Nat) : Message :=
  { id := "assistant-" ++ Nat.repr now, sender := Sender.assistant, text := aiResponse,
    timestamp := now }

/-- Definition of `handleSend`: guard on trimmed-empty input or an in-flight send, append
the user display message, clear the input, set the in-flight flag, call the
service, then append the assistant message, install the new history and clear
the uploads — or, were `callGeminiAPI` ever to throw, append the catch
branch's distinct apology.  `isTyping` is reset on every path (`finally`). -/
def handleSend (s : ChatState) (outcome : ServiceOutcome) (now : Nat) : SendResult :=
  let text := strTrim s.input
  if text = "" ∨ s.isTyping = true then
    { state := s, requests := [] }
  else
    let userMessage := userMsgOf text now
    let s1 : ChatState :=
      { s with messages := s.messages ++ [userMessage], input := "", isTyping := true }
    match callGeminiAPI s1.conversationHistory s1.uploadedFiles text
        (decide (s1.uploadedFiles.length > 0)) outcome with
    | (reqs, Except.ok (aiResponse, newHist)) =>
        let assistantMessage := assistantMsgOf aiResponse now
        { state :=
            { s1 with messages := s1.messages ++ [assistantMessage],
                      conversationHistory := newHist,
                      uploadedFiles := [],
                      isTyping := false },
          requests := reqs }
    | (reqs, Except.error _) =>
        let errorMessage : Message :=
          { id := "assistant-" ++ Nat.repr now, sender := Sender.assistant,
            text := "Sorry, I encountered an error. Please try again.", timestamp := now }
        { state :=
            { s1 with messages := s1.messages ++ [errorMessage], isTyping := false },
          requests := reqs }

/-! ## `handleFileUpload` and `removeFile` -/

/-- One file-input change event: no file selected, or a file with a name, a
declared media type, and (if it is read and parsed) a `PDFDocument`; reading
may fail (`FileReader.onerror` or `getDocument` rejecting). -/
inductive UploadEvent where
  | noFile
  | file (name : String) (mediaType : String) (readResult : Except Unit PDFDocument)

/-- The `Uploaded: <name>` display message built on a successful upload. -/
def fileMsgOf (name : String) (now : Nat) : Message :=
  { id := "file-" ++ Nat.repr now, sender := Sender.user, text := "Uploaded: " ++ name,
    timestamp := now, hasAttachment := true, attachmentName := some name }

/-- Definition of `handleFileUpload`: reject non-PDF media types and uploads before PDF.js
is loaded (alert only, no state change); otherwise extract the text and, on
success, append the `UploadedFile` and the `Uploaded: <name>` display
message.  `isProcessingFile` ends false on every completed path
(`finally`). -/
def handleFileUpload (s : ChatState) (ev : UploadEvent) (now : Nat) : ChatState :=
  match ev with
  | UploadEvent.noFile => s
  | UploadEvent.file name mediaType readResult =>
    if mediaType ≠ "application/pdf" then s
    else if s.pdfJsLoaded = false then s
    else
      match readResult.bind extractTextFromPDF with
      | Except.ok extractedText =>
          let newFile : UploadedFile := { name := name, content := extractedText }
          let fileMessage : Message := fileMsgOf name now
          { s with uploadedFiles := s.uploadedFiles ++ [newFile],
                   messages := s.messages ++ [fileMessage],
                   isProcessingFile := false }
      | Except.error _ => { s with isProcessingFile := false }

/-- Definition of `removeFile`: `prev.filter((_, i) => i !== index)`. -/
def removeFile (s : ChatState) (index : Nat) : ChatState :=
  { s with uploadedFiles :=
      ((s.uploadedFiles.enum).filter (fun p => p.1 ≠ index)).map Prod.snd }

/-! ## Operation sequences -/

/-- One user-visible operation on the component. -/
inductive Op where
  | send (outcome : ServiceOutcome) (now : Nat)
  | upload (ev : UploadEvent) (now : Nat)
  | removeAt (index : Nat)

/-- Apply one operation to the state. -/
def applyOp (s : ChatState) : Op → ChatState
  | Op.send outcome now => (handleSend s outcome now).state
  | Op.upload ev now => handleFileUpload s ev now
  | Op.removeAt index => removeFile s index

/-- Run a sequence of operations from a state. -/
def runOps (s : ChatState) (ops : List Op) : ChatState :=
  ops.foldl applyOp s

/-! ## Concrete example data -/

/-- A ready state with one pending attachment `doc.pdf` (content `X`) and the
input `Summarize` — the state of end-to-end scenario B. -/
def exStateB : ChatState :=
  { messages := [], conversationHistory := [], input := "Summarize", isTyping := false,
    uploadedFiles := [{ name := "doc.pdf", content := "X" }], isProcessingFile := false,
    pdfJsLoaded := true }

/-- A ready state with no pending attachments and input `Hello`. -/
def exStateA : ChatState :=
  { messages := [], conversationHistory := [], input := "Hello", isTyping := false,
    uploadedFiles := [], isProcessingFile := false, pdfJsLoaded := true }

/-- A state with a send already in flight. -/
def exStateTyping : ChatState :=
  { messages := [], conversationHistory := [], input := "hello", isTyping := true,
    uploadedFiles := [], isProcessingFile := false, pdfJsLoaded := true }

/-- A parsed response whose reply text at the probed path is `Hi!`. -/
def exRespHi : GeminiResponse :=
  { candidates := some [{ content := some { parts := some [{ text := some "Hi!" }] } }] }

/-- A parsed response whose `text` field is present but holds the empty
string. -/
def exRespEmptyText : GeminiResponse :=
  { candidates := some [{ content := some { parts := some [{ text := some "" }] } }] }

/-! ## Helper lemmas -/

theorem extractLoop_ok (pagesOk : List (List PDFItem)) :
    ∀ (i : Nat) (acc : String),
      extractLoop (pagesOk.map Except.ok) i acc = Except.ok (acc ++ pagesConcat i pagesOk) := by
  induction pagesOk with
  | nil => intro i acc; simp [extractLoop, pagesConcat, String.append_empty]
  | cons items rest ih =>
      intro i acc
      simp only [List.map, extractLoop, pagesConcat]
      rw [ih (i + 1) (acc ++ pageBlock i items), String.append_assoc]

theorem extractLoop_err (pre : List (List PDFItem)) :
    ∀ (e : Unit) (rest : List (Except Unit (List PDFItem))) (i : Nat) (acc : String),
      extractLoop (pre.map Except.ok ++ Except.error e :: rest) i acc = Except.error e := by
  induction pre with
  | nil => intro e rest i acc; simp [extractLoop]
  | cons items pretl ih =>
      intro e rest i acc
      simp only [List.map, List.cons_append, extractLoop]
      exact ih e rest (i + 1) (acc ++ pageBlock i items)

theorem guard_not_taken {s : ChatState} (hin : strTrim s.input ≠ "") (hty : s.isTyping = false) :
    ¬(strTrim s.input = "" ∨ s.isTyping = true) := by
  rintro (h | h)
  · exact hin h
  · rw [hty] at h; cases h

/-- Full characterization of `handleSend` when the service call fails: the
`catch` inside `callGeminiAPI` converts the failure into the fixed apology
reply, so `handleSend` still runs its success branch — appending the apology
as the assistant message, leaving the model session alone, and clearing the
uploads. -/
theorem handleSend_failure_eq (s : ChatState) (outcome : ServiceOutcome) (now : Nat)
    (hfail : outcome.isFailure = true) (hin : strTrim s.input ≠ "") (hty : s.isTyping = false) :
    handleSend s outcome now =
      { state :=
          { s with
            messages := s.messages ++
              [userMsgOf (strTrim s.input) now,
               assistantMsgOf
                 "Sorry, I encountered an error while processing your request. Please try again."
                 now],
            input := "",
            isTyping := false,
            uploadedFiles := [] },
        requests := [s.conversationHistory ++
          [{ role := Role.user,
             parts := [{ text := composeMessage s.uploadedFiles (strTrim s.input) (decide (s.uploadedFiles.length > 0)) }] }]] } := by
  have hg := guard_not_taken hin hty
  cases outcome with
  | success data => simp [ServiceOutcome.isFailure] at hfail
  | networkError =>
      simp [handleSend, hg, callGeminiAPI, callGeminiAPIBody, userMsgOf, assistantMsgOf,
        List.append_assoc]
  | httpError status =>
      simp [handleSend, hg, callGeminiAPI, callGeminiAPIBody, userMsgOf, assistantMsgOf,
        List.append_assoc]
  | parseError =>
      simp [handleSend, hg, callGeminiAPI, callGeminiAPIBody, userMsgOf, assistantMsgOf,
        List.append_assoc]

/-! ## Claim theorems -/

/-- C2: on a send whose completion-service call fails, the conversation log
gains the pending user bubble plus exactly one assistant `DisplayMessage`,
whose text is the fixed apology string, and the model session
(`conversationHistory`) is unchanged — neither the composed user turn nor any
model turn is appended for the failed exchange. -/
theorem send_failure_apology_and_session_unchanged (s : ChatState) (outcome : ServiceOutcome)
    (now : Nat) (hfail : outcome.isFailure = true) (hin : strTrim s.input ≠ "")
    (hty : s.isTyping = false) :
    (handleSend s outcome now).state.messages =
      s.messages ++
        [userMsgOf (strTrim s.input) now,
         assistantMsgOf "Sorry, I encountered an error while processing your request. Please try again." now] ∧
    (handleSend s outcome now).state.conversationHistory = s.conversationHistory := by
  rw [handleSend_failure_eq s outcome now hfail hin hty]
  exact ⟨rfl, rfl⟩

/-- Witness for the C2 theorem at a concrete failing send. -/
theorem send_failure_apology_and_session_unchanged_witness :
    (handleSend exStateB ServiceOutcome.networkError 0).state.messages =
      exStateB.messages ++
        [userMsgOf (strTrim exStateB.input) 0,
         assistantMsgOf "Sorry, I encountered an error while processing your request. Please try again." 0] ∧
    (handleSend exStateB ServiceOutcome.networkError 0).state.conversationHistory =
      exStateB.conversationHistory :=
  send_failure_apology_and_session_unchanged exStateB ServiceOutcome.networkError 0 rfl
    (by decide) rfl

/-- C1 as stated is false on the code: at a state with one pending attachment,
a send whose service call fails (network error) does not leave the attachment
store at its pre-send value — it is cleared. -/
theorem send_failure_attachment_store_cex :
    (handleSend exStateB ServiceOutcome.networkError 0).state.uploadedFiles ≠
      exStateB.uploadedFiles := by decide

/-- C1 (amended): after a send in which the completion-service call fails,
the attachment store is empty — `setUploadedFiles([])` runs on the failure
path too, because `callGeminiAPI` swallows the failure and `handleSend`
proceeds on its success branch; pending attachments are cleared, not
retained. -/
theorem send_failure_attachment_store (s : ChatState) (outcome : ServiceOutcome) (now : Nat)
    (hfail : outcome.isFailure = true) (hin : strTrim s.input ≠ "") (hty : s.isTyping = false) :
    (handleSend s outcome now).state.uploadedFiles = [] := by
  rw [handleSend_failure_eq s outcome now hfail hin hty]

/-- Witness for the amended C1 theorem at a concrete failing send. -/
theorem send_failure_attachment_store_witness :
    (handleSend exStateB ServiceOutcome.parseError 3).state.uploadedFiles = [] :=
  send_failure_attachment_store exStateB ServiceOutcome.parseError 3 rfl (by decide) rfl

/-- C4: a send that reaches the success branch of the completion-service call
leaves the attachment store empty, whatever it held before. -/
theorem send_success_clears_attachments (s : ChatState) (data : GeminiResponse) (now : Nat)
    (hin : strTrim s.input ≠ "") (hty : s.isTyping = false) :
    (handleSend s (ServiceOutcome.success data) now).state.uploadedFiles = [] := by
  have hg := guard_not_taken hin hty
  simp [handleSend, hg, callGeminiAPI, callGeminiAPIBody]

/-- Witness for the C4 theorem at a concrete successful send. -/
theorem send_success_clears_attachments_witness :
    (handleSend exStateB (ServiceOutcome.success exRespHi) 1).state.uploadedFiles = [] :=
  send_success_clears_attachments exStateB exRespHi 1 (by decide) rfl

/-- C7: invoking send with input that is empty after trimming, or while a
send is already in flight, is a complete no-op — no outbound request, no
appended message, no state change at all. -/
theorem send_guard_noop (s : ChatState) (outcome : ServiceOutcome) (now : Nat)
    (h : strTrim s.input = "" ∨ s.isTyping = true) :
    handleSend s outcome now = { state := s, requests := [] } := by
  simp only [handleSend]
  rw [if_pos h]

/-- Witness for the C7 theorem with a send already in flight. -/
theorem send_guard_noop_witness :
    handleSend exStateTyping ServiceOutcome.networkError 7 =
      { state := exStateTyping, requests := [] } :=
  send_guard_noop exStateTyping ServiceOutcome.networkError 7 (Or.inr rfl)

/-- C8: uploading a file whose declared media type is not `application/pdf`
leaves the whole component state (attachment store, conversation log, and
everything else) unchanged. -/
theorem upload_non_pdf_noop (s : ChatState) (name mediaType : String)
    (readResult : Except Unit PDFDocument) (now : Nat) (h : mediaType ≠ "application/pdf") :
    handleFileUpload s (UploadEvent.file name mediaType readResult) now = s := by
  simp only [handleFileUpload]
  rw [if_pos h]

/-- Witness for the C8 theorem at a concrete PNG upload. -/
theorem upload_non_pdf_noop_witness :
    handleFileUpload exStateA (UploadEvent.file "img.png" "image/png" (Except.error ())) 2 =
      exStateA :=
  upload_non_pdf_noop exStateA "img.png" "image/png" (Except.error ()) 2 (by decide)

theorem compose_scenarioB :
    composeMessage [{ name := "doc.pdf", content := "X" }] "Summarize" true =
      "Context from uploaded files:\nContent from doc.pdf:\nX\n\nUser question: Summarize" := rfl

/-- C3: with exactly one pending attachment `doc.pdf` of content `X` and
input `Summarize`, the user-role turn appended to the model session carries
exactly the synthesized context block while the user display message carries
the plain `Summarize`; and with no pending attachments the appended user turn
is exactly the trimmed raw input. -/
theorem send_composed_turn_vs_display :
    (∀ (s : ChatState) (data : GeminiResponse) (now : Nat),
       s.uploadedFiles = [{ name := "doc.pdf", content := "X" }] →
       strTrim s.input = "Summarize" → s.isTyping = false →
       (handleSend s (ServiceOutcome.success data) now).state.conversationHistory =
         s.conversationHistory ++
           [{ role := Role.user,
              parts := [{ text := "Context from uploaded files:\nContent from doc.pdf:\nX\n\nUser question: Summarize" }] },
            { role := Role.model, parts := [{ text := aiReplyText data }] }] ∧
       (handleSend s (ServiceOutcome.success data) now).state.messages =
         s.messages ++ [userMsgOf "Summarize" now, assistantMsgOf (aiReplyText data) now]) ∧
    (∀ (s : ChatState) (data : GeminiResponse) (now : Nat),
       s.uploadedFiles = [] → strTrim s.input ≠ "" → s.isTyping = false →
       (handleSend s (ServiceOutcome.success data) now).state.conversationHistory =
         s.conversationHistory ++
           [{ role := Role.user, parts := [{ text := strTrim s.input }] },
            { role := Role.model, parts := [{ text := aiReplyText data }] }]) := by
  constructor
  · intro s data now hfiles hin hty
    have hne : strTrim s.input ≠ "" := by rw [hin]; decide
    have hg := guard_not_taken hne hty
    refine ⟨?_, ?_⟩
    · simp [handleSend, hg, hty, callGeminiAPI, callGeminiAPIBody, hfiles, hin,
        compose_scenarioB, List.append_assoc]
    · simp [handleSend, hg, hty, callGeminiAPI, callGeminiAPIBody, hin, List.append_assoc]
  · intro s data now hfiles hin hty
    have hg := guard_not_taken hin hty
    simp [handleSend, hg, hty, hin, callGeminiAPI, callGeminiAPIBody, hfiles, composeMessage,
      List.append_assoc]

/-- Witness for the C3 theorem at scenario B and at an attachment-free send. -/
theorem send_composed_turn_vs_display_witness :
    ((handleSend exStateB (ServiceOutcome.success exRespHi) 0).state.conversationHistory =
       exStateB.conversationHistory ++
         [{ role := Role.user,
            parts := [{ text := "Context from uploaded files:\nContent from doc.pdf:\nX\n\nUser question: Summarize" }] },
          { role := Role.model, parts := [{ text := aiReplyText exRespHi }] }] ∧
     (handleSend exStateB (ServiceOutcome.success exRespHi) 0).state.messages =
       exStateB.messages ++ [userMsgOf "Summarize" 0, assistantMsgOf (aiReplyText exRespHi) 0]) ∧
    (handleSend exStateA (ServiceOutcome.success exRespHi) 1).state.conversationHistory =
      exStateA.conversationHistory ++
        [{ role := Role.user, parts := [{ text := strTrim exStateA.input }] },
         { role := Role.model, parts := [{ text := aiReplyText exRespHi }] }] :=
  ⟨send_composed_turn_vs_display.1 exStateB exRespHi 0 rfl (by decide) rfl,
   send_composed_turn_vs_display.2 exStateA exRespHi 1 rfl (by decide) rfl⟩

/-- C5: extraction walks the pages in strictly increasing index order 1..N and
returns the concatenation, for page `i`, of the header `Page i:` and newline,
the page's fragments joined by single spaces, and a blank line; a failure on
any page yields an error with no partial result. -/
theorem extractTextFromPDF_pages :
    (∀ pagesOk : List (List PDFItem),
       extractTextFromPDF { pages := pagesOk.map Except.ok } =
         Except.ok (pagesConcat 1 pagesOk)) ∧
    (∀ (pre : List (List PDFItem)) (e : Unit) (rest : List (Except Unit (List PDFItem))),
       extractTextFromPDF { pages := pre.map Except.ok ++ Except.error e :: rest } =
         Except.error e) := by
  constructor
  · intro pagesOk
    show extractLoop (pagesOk.map Except.ok) 1 "" = _
    rw [extractLoop_ok pagesOk 1 ""]
    rw [String.empty_append]
  · intro pre e rest
    exact extractLoop_err pre e rest 1 ""

/-- C6 as stated is false on the code: a response whose `text` field at the
probed path is present but holds the empty string also yields the fallback,
so the fallback is not used only when the field is absent. -/
theorem reply_fallback_cex :
    responseText exRespEmptyText = some "" ∧
    aiReplyText exRespEmptyText = "Sorry, I could not generate a response." :=
  ⟨rfl, rfl⟩

/-- C6 (amended): the reply text is taken from the fixed nested path (first
candidate, first content part, `text` field); the fixed fallback string is
substituted exactly when that field is absent or is the empty string (the
JavaScript `||` treats both as falsy); and on every success outcome the
service call returns that reply. -/
theorem reply_from_fixed_path :
    (∀ (data : GeminiResponse) (t : String),
       responseText data = some t → t ≠ "" → aiReplyText data = t) ∧
    (∀ data : GeminiResponse,
       responseText data = none ∨ responseText data = some "" →
       aiReplyText data = "Sorry, I could not generate a response.") ∧
    (∀ (hist : List GeminiContent) (files : List UploadedFile) (msg : String) (incl : Bool)
        (data : GeminiResponse),
       ∃ newHist,
         (callGeminiAPI hist files msg incl (ServiceOutcome.success data)).2 =
           Except.ok (aiReplyText data, newHist)) := by
  refine ⟨?_, ?_, ?_⟩
  · intro data t h hne
    simp [aiReplyText, orFalsy, h, hne]
  · rintro data (h | h) <;> simp [aiReplyText, orFalsy, h]
  · intro hist files msg incl data
    refine ⟨hist ++ [{ role := Role.user, parts := [{ text := composeMessage files msg incl }] },
      { role := Role.model, parts := [{ text := aiReplyText data }] }], ?_⟩
    simp [callGeminiAPI, callGeminiAPIBody, List.append_assoc]

/-- Witness for the C6 theorem: a reply present and non-empty is used as is. -/
theorem reply_from_fixed_path_witness : aiReplyText exRespHi = "Hi!" :=
  reply_from_fixed_path.1 exRespHi "Hi!" rfl (by decide)

/-- Shape of a non-guarded `handleSend`: the success branch is always the one
taken, the assistant message carries exactly the `callGeminiAPI` result, and
the new model session is the old one or the old one plus one user and one
model turn. -/
theorem handleSend_ok_shape (s : ChatState) (outcome : ServiceOutcome) (now : Nat)
    (hg : ¬(strTrim s.input = "" ∨ s.isTyping = true)) :
    ∃ reply newHist reqs,
      handleSend s outcome now =
        { state :=
            { s with
              messages := s.messages ++ [userMsgOf (strTrim s.input) now, assistantMsgOf reply now],
              conversationHistory := newHist, uploadedFiles := [], input := "",
              isTyping := false },
          requests := reqs } ∧
      (callGeminiAPI s.conversationHistory s.uploadedFiles (strTrim s.input)
          (decide (s.uploadedFiles.length > 0)) outcome).2 = Except.ok (reply, newHist) ∧
      (newHist = s.conversationHistory ∨
        ∃ u m, newHist = s.conversationHistory ++ [u, m]) := by
  have hin : strTrim s.input ≠ "" := fun h => hg (Or.inl h)
  have hty : s.isTyping = false := by
    cases h : s.isTyping
    · rfl
    · exact absurd (Or.inr h) hg
  cases outcome with
  | success data =>
      refine ⟨aiReplyText data,
        s.conversationHistory ++
          [{ role := Role.user,
             parts := [{ text := composeMessage s.uploadedFiles (strTrim s.input) (decide (s.uploadedFiles.length > 0)) }] },
           { role := Role.model, parts := [{ text := aiReplyText data }] }],
        [s.conversationHistory ++
          [{ role := Role.user,
             parts := [{ text := composeMessage s.uploadedFiles (strTrim s.input) (decide (s.uploadedFiles.length > 0)) }] }]],
        ?_, ?_, Or.inr ⟨_, _, rfl⟩⟩
      · simp [handleSend, hin, hty, callGeminiAPI, callGeminiAPIBody, List.append_assoc]
      · simp [callGeminiAPI, callGeminiAPIBody, List.append_assoc]
  | networkError =>
      refine ⟨"Sorry, I encountered an error while processing your request. Please try again.",
        s.conversationHistory,
        [s.conversationHistory ++
          [{ role := Role.user,
             parts := [{ text := composeMessage s.uploadedFiles (strTrim s.input) (decide (s.uploadedFiles.length > 0)) }] }]],
        ?_, ?_, Or.inl rfl⟩
      · simp [handleSend, hin, hty, callGeminiAPI, callGeminiAPIBody, List.append_assoc]
      · simp [callGeminiAPI, callGeminiAPIBody]
  | httpError status =>
      refine ⟨"Sorry, I encountered an error while processing your request. Please try again.",
        s.conversationHistory,
        [s.conversationHistory ++
          [{ role := Role.user,
             parts := [{ text := composeMessage s.uploadedFiles (strTrim s.input) (decide (s.uploadedFiles.length > 0)) }] }]],
        ?_, ?_, Or.inl rfl⟩
      · simp [handleSend, hin, hty, callGeminiAPI, callGeminiAPIBody, List.append_assoc]
      · simp [callGeminiAPI, callGeminiAPIBody]
  | parseError =>
      refine ⟨"Sorry, I encountered an error while processing your request. Please try again.",
        s.conversationHistory,
        [s.conversationHistory ++
          [{ role := Role.user,
             parts := [{ text := composeMessage s.uploadedFiles (strTrim s.input) (decide (s.uploadedFiles.length > 0)) }] }]],
        ?_, ?_, Or.inl rfl⟩
      · simp [handleSend, hin, hty, callGeminiAPI, callGeminiAPIBody, List.append_assoc]
      · simp [callGeminiAPI, callGeminiAPIBody]

theorem applyOp_extend (s : ChatState) (op : Op) :
    (∃ t, (applyOp s op).messages = s.messages ++ t) ∧
    (∃ t, (applyOp s op).conversationHistory = s.conversationHistory ++ t) := by
  cases op with
  | send outcome now =>
      by_cases hg : strTrim s.input = "" ∨ s.isTyping = true
      · constructor <;> exact ⟨[], by simp [applyOp, handleSend, hg]⟩
      · obtain ⟨reply, newHist, reqs, heq, hok, hh⟩ := handleSend_ok_shape s outcome now hg
        constructor
        · exact ⟨[userMsgOf (strTrim s.input) now, assistantMsgOf reply now],
            by simp [applyOp, heq]⟩
        · rcases hh with h | ⟨u, m, h⟩
          · exact ⟨[], by simp [applyOp, heq, h]⟩
          · exact ⟨[u, m], by simp [applyOp, heq, h]⟩
  | upload ev now =>
      cases ev with
      | noFile => constructor <;> exact ⟨[], by simp [applyOp, handleFileUpload]⟩
      | file name mediaType readResult =>
          by_cases h1 : mediaType ≠ "application/pdf"
          · constructor <;> exact ⟨[], by simp [applyOp, handleFileUpload, h1]⟩
          · by_cases h2 : s.pdfJsLoaded = false
            · constructor <;> exact ⟨[], by simp [applyOp, handleFileUpload, h1, h2]⟩
            · cases h3 : (readResult.bind extractTextFromPDF) with
              | ok extractedText =>
                  constructor
                  · exact ⟨[fileMsgOf name now], by simp [applyOp, handleFileUpload, h1, h2, h3]⟩
                  · exact ⟨[], by simp [applyOp, handleFileUpload, h1, h2, h3]⟩
              | error e =>
                  constructor <;> exact ⟨[], by simp [applyOp, handleFileUpload, h1, h2, h3]⟩
  | removeAt index =>
      constructor <;> exact ⟨[], by simp [applyOp, removeFile]⟩

theorem runOps_extend (s : ChatState) (ops : List Op) :
    (∃ t, (runOps s ops).messages = s.messages ++ t) ∧
    (∃ t, (runOps s ops).conversationHistory = s.conversationHistory ++ t) := by
  induction ops generalizing s with
  | nil => constructor <;> exact ⟨[], by simp [runOps]⟩
  | cons op rest ih =>
      obtain ⟨⟨t1, h1⟩, ⟨t2, h2⟩⟩ := applyOp_extend s op
      obtain ⟨⟨t3, h3⟩, ⟨t4, h4⟩⟩ := ih (applyOp s op)
      have e : runOps s (op :: rest) = runOps (applyOp s op) rest := rfl
      constructor
      · exact ⟨t1 ++ t3, by rw [e, h3, h1, List.append_assoc]⟩
      · exact ⟨t2 ++ t4, by rw [e, h4, h2, List.append_assoc]⟩

/-- C9: over every sequence of operations (sends with any service outcome,
uploads, attachment removals) the conversation log is append-only — its
length never decreases and every existing entry is untouched — and the same
holds for the model session. -/
theorem logs_append_only (s : ChatState) (ops : List Op) :
    s.messages.length ≤ (runOps s ops).messages.length ∧
    (runOps s ops).messages.take s.messages.length = s.messages ∧
    s.conversationHistory.length ≤ (runOps s ops).conversationHistory.length ∧
    (runOps s ops).conversationHistory.take s.conversationHistory.length =
      s.conversationHistory := by
  obtain ⟨⟨t1, h1⟩, ⟨t2, h2⟩⟩ := runOps_extend s ops
  refine ⟨?_, ?_, ?_, ?_⟩
  · rw [h1]; simp
  · rw [h1]; exact List.take_left _ _
  · rw [h2]; simp
  · rw [h2]; exact List.take_left _ _

/-- C10: `callGeminiAPI` resolves with a string on every outcome (its
catch-all converts every failure into a returned apology), so `handleSend`
always takes its success branch: its own catch branch — the one that would
append the distinct apology `Sorry, I encountered an error. Please try
again.` — is unreachable, and the assistant message appended is always the
string `callGeminiAPI` returned. -/
theorem callGeminiAPI_total_catch_unreachable :
    (∀ (hist : List GeminiContent) (files : List UploadedFile) (msg : String) (incl : Bool)
        (outcome : ServiceOutcome),
       ∃ r, (callGeminiAPI hist files msg incl outcome).2 = Except.ok r) ∧
    (∀ (s : ChatState) (outcome : ServiceOutcome) (now : Nat),
       ¬(strTrim s.input = "" ∨ s.isTyping = true) →
       ∃ reply newHist,
         (callGeminiAPI s.conversationHistory s.uploadedFiles (strTrim s.input)
             (decide (s.uploadedFiles.length > 0)) outcome).2 = Except.ok (reply, newHist) ∧
         (handleSend s outcome now).state =
           { s with
             messages := s.messages ++
               [userMsgOf (strTrim s.input) now, assistantMsgOf reply now],
             conversationHistory := newHist, uploadedFiles := [], input := "",
             isTyping := false }) := by
  constructor
  · intro hist files msg incl outcome
    cases outcome <;> simp [callGeminiAPI, callGeminiAPIBody]
  · intro s outcome now hg
    obtain ⟨reply, newHist, reqs, heq, hok, _⟩ := handleSend_ok_shape s outcome now hg
    exact ⟨reply, newHist, hok, by rw [heq]⟩

/-- Witness for the C10 theorem at a concrete send with a parse failure. -/
theorem callGeminiAPI_total_catch_unreachable_witness :
    ∃ reply newHist,
      (callGeminiAPI exStateA.conversationHistory exStateA.uploadedFiles (strTrim exStateA.input)
          (decide (exStateA.uploadedFiles.length > 0)) ServiceOutcome.parseError).2 =
        Except.ok (reply, newHist) ∧
      (handleSend exStateA ServiceOutcome.parseError 4).state =
        { exStateA with
          messages := exStateA.messages ++
            [userMsgOf (strTrim exStateA.input) 4, assistantMsgOf reply 4],
          conversationHistory := newHist, uploadedFiles := [], input := "",
          isTyping := false } :=
  callGeminiAPI_total_catch_unreachable.2 exStateA ServiceOutcome.parseError 4 (by decide)

/-- Witness for the C5 theorem at a concrete two-page document and a
document failing on its second page. -/
theorem extractTextFromPDF_pages_witness :
    extractTextFromPDF
        { pages := ([[{ str := "a" }, { str := "b" }], [{ str := "c" }]] : List (List PDFItem)).map Except.ok } =
      Except.ok (pagesConcat 1 [[{ str := "a" }, { str := "b" }], [{ str := "c" }]]) ∧
    extractTextFromPDF
        { pages := ([[{ str := "a" }]] : List (List PDFItem)).map Except.ok ++ Except.error () :: [] } =
      Except.error () :=
  ⟨extractTextFromPDF_pages.1 [[{ str := "a" }, { str := "b" }], [{ str := "c" }]],
   extractTextFromPDF_pages.2 [[{ str := "a" }]] () []⟩

/-- Witness for the C9 theorem on a concrete operation sequence. -/
theorem logs_append_only_witness :
    exStateB.messages.length ≤
      (runOps exStateB [Op.send ServiceOutcome.networkError 0, Op.removeAt 0]).messages.length ∧
    (runOps exStateB [Op.send ServiceOutcome.networkError 0, Op.removeAt 0]).messages.take
        exStateB.messages.length = exStateB.messages ∧
    exStateB.conversationHistory.length ≤
      (runOps exStateB [Op.send ServiceOutcome.networkError 0, Op.removeAt 0]).conversationHistory.length ∧
    (runOps exStateB [Op.send ServiceOutcome.networkError 0, Op.removeAt 0]).conversationHistory.take
        exStateB.conversationHistory.length = exStateB.conversationHistory :=
  logs_append_only exStateB [Op.send ServiceOutcome.networkError 0, Op.removeAt 0]
